import Mathlib

/-!
Shallow embedding of the fitness-tracker program (src/homework.py).

Numeric values (Python ints and floats used as real quantities) are
modelled as exact rationals; every class becomes a structure carrying the
fields bound by its constructor, and every method becomes a function of
those fields.  Class constants keep their source names.
-/

namespace Homework

/-- Class constants of the base class Training. -/
def Training.LEN_STEP : ℚ := 0.65

def Training.M_IN_KM : ℚ := 1000

def Training.MIN_IN_H : ℚ := 60

/-- Base class Training: fields bound by its constructor. -/
structure Training where
  action : ℚ
  duration : ℚ
  weight : ℚ

/-- Training.get_distance, parametrised by the dynamically resolved
LEN_STEP of the receiver's class. -/
def Training.get_distance_with (len_step : ℚ) (self : Training) : ℚ :=
  self.action * len_step / Training.M_IN_KM

/-- Training.get_mean_speed, parametrised by the receiver's LEN_STEP. -/
def Training.get_mean_speed_with (len_step : ℚ) (self : Training) : ℚ :=
  Training.get_distance_with len_step self / self.duration

/-- class Running(Training): adds no field. -/
structure Running extends Training

def Running.CALORIES_MEAN_SPEED_MULTIPLIER : ℚ := 18

def Running.CALORIES_MEAN_SPEED_SHIFT : ℚ := 1.79

/-- Running inherits get_distance with Training.LEN_STEP. -/
def Running.get_distance (self : Running) : ℚ :=
  Training.get_distance_with Training.LEN_STEP self.toTraining

/-- Running inherits get_mean_speed. -/
def Running.get_mean_speed (self : Running) : ℚ :=
  Training.get_mean_speed_with Training.LEN_STEP self.toTraining

/-- Running.get_spent_calories. -/
def Running.get_spent_calories (self : Running) : ℚ :=
  (Running.CALORIES_MEAN_SPEED_MULTIPLIER * self.get_mean_speed
      + Running.CALORIES_MEAN_SPEED_SHIFT)
    * self.weight
    / Training.M_IN_KM * (self.duration * Training.MIN_IN_H)

/-- class SportsWalking(Training): adds height. -/
structure SportsWalking extends Training where
  height : ℚ

def SportsWalking.CALORIES_WEIGHT_MULTIPLIER : ℚ := 0.035

def SportsWalking.CALORIES_SPEED_HEIGHT_MULTIPLIER : ℚ := 0.029

def SportsWalking.KMH_IN_MSEC : ℚ := 0.278

def SportsWalking.CM_IN_M : ℚ := 100

/-- SportsWalking inherits get_distance with Training.LEN_STEP. -/
def SportsWalking.get_distance (self : SportsWalking) : ℚ :=
  Training.get_distance_with Training.LEN_STEP self.toTraining

/-- SportsWalking inherits get_mean_speed. -/
def SportsWalking.get_mean_speed (self : SportsWalking) : ℚ :=
  Training.get_mean_speed_with Training.LEN_STEP self.toTraining

/-- SportsWalking.get_spent_calories. -/
def SportsWalking.get_spent_calories (self : SportsWalking) : ℚ :=
  (SportsWalking.CALORIES_WEIGHT_MULTIPLIER * self.weight
      + ((self.get_mean_speed * SportsWalking.KMH_IN_MSEC) ^ 2
            / (self.height / SportsWalking.CM_IN_M))
        * SportsWalking.CALORIES_SPEED_HEIGHT_MULTIPLIER
        * self.weight)
    * (self.duration * Training.MIN_IN_H)

/-- class Swimming(Training): adds length_pool and count_pool. -/
structure Swimming extends Training where
  length_pool : ℚ
  count_pool : ℚ

/-- Swimming overrides LEN_STEP. -/
def Swimming.LEN_STEP : ℚ := 1.38

def Swimming.SPEED_MEAN_MULTIPLER : ℚ := 1.1

def Swimming.WEIGHT_MULTIPLER : ℚ := 2

/-- Swimming inherits get_distance, but with the overridden LEN_STEP. -/
def Swimming.get_distance (self : Swimming) : ℚ :=
  Training.get_distance_with Swimming.LEN_STEP self.toTraining

/-- Swimming.get_mean_speed overrides the step-based formula. -/
def Swimming.get_mean_speed (self : Swimming) : ℚ :=
  self.length_pool * self.count_pool / Training.M_IN_KM / self.duration

/-- Swimming.get_spent_calories. -/
def Swimming.get_spent_calories (self : Swimming) : ℚ :=
  (self.get_mean_speed + Swimming.SPEED_MEAN_MULTIPLER)
    * Swimming.WEIGHT_MULTIPLER * self.weight * self.duration

/-- A concrete workout of one of the three dispatchable kinds. -/
inductive Workout where
  | swm : Swimming → Workout
  | run : Running → Workout
  | wlk : SportsWalking → Workout

def Workout.duration : Workout → ℚ
  | .swm s => s.duration
  | .run r => r.duration
  | .wlk w => w.duration

def Workout.get_distance : Workout → ℚ
  | .swm s => s.get_distance
  | .run r => r.get_distance
  | .wlk w => w.get_distance

def Workout.get_mean_speed : Workout → ℚ
  | .swm s => s.get_mean_speed
  | .run r => r.get_mean_speed
  | .wlk w => w.get_mean_speed

def Workout.get_spent_calories : Workout → ℚ
  | .swm s => s.get_spent_calories
  | .run r => r.get_spent_calories
  | .wlk w => w.get_spent_calories

/-- self.__class__.__name__ of the underlying object. -/
def Workout.className : Workout → String
  | .swm _ => "Swimming"
  | .run _ => "Running"
  | .wlk _ => "SportsWalking"

/-- read_package dispatches the three-letter code to a class and binds the
reading positionally.  In Python an unrecognized code raises KeyError and a
reading of the wrong arity raises TypeError from the constructor call; both
failures are modelled as none (no Training value is produced). -/
def read_package (workout_type : String) (data : List ℚ) : Option Workout :=
  if workout_type = "SWM" then
    match data with
    | [a, d, w, lp, cp] => some (.swm ⟨⟨a, d, w⟩, lp, cp⟩)
    | _ => none
  else if workout_type = "RUN" then
    match data with
    | [a, d, w] => some (.run ⟨⟨a, d, w⟩⟩)
    | _ => none
  else if workout_type = "WLK" then
    match data with
    | [a, d, w, h] => some (.wlk ⟨⟨a, d, w⟩, h⟩)
    | _ => none
  else none

/-- class InfoMessage: fields bound by its constructor. -/
structure InfoMessage where
  training_type : String
  duration : ℚ
  distance : ℚ
  speed : ℚ
  calories : ℚ

/-- The three digit characters of a number below 1000, most significant
first: the fractional part of a value rendered at 3 decimal digits. -/
def threeDigits (k : ℕ) : String :=
  String.mk [Nat.digitChar (k / 100), Nat.digitChar (k / 10 % 10),
    Nat.digitChar (k % 10)]

/-- Rendering of a numeric value by the format specifier .3f: round to the
nearest thousandth and print with exactly 3 digits after the point. -/
def formatFixed3 (q : ℚ) : String :=
  let n : ℤ := round (q * 1000)
  (if n < 0 then "-" else "") ++ toString (n.natAbs / 1000) ++ "."
    ++ threeDigits (n.natAbs % 1000)

/-- InfoMessage.get_message: the fixed template line. -/
def InfoMessage.get_message (self : InfoMessage) : String :=
  "Тип тренировки: " ++ self.training_type
    ++ "; Длительность: " ++ formatFixed3 self.duration
    ++ " ч.; Дистанция: " ++ formatFixed3 self.distance
    ++ " км; Ср. скорость: " ++ formatFixed3 self.speed
    ++ " км/ч; Потрачено ккал: " ++ formatFixed3 self.calories ++ "."

/-- Training.show_training_info, resolved on a concrete workout: builds the
InfoMessage from the class name and the three computed quantities. -/
def Workout.show_training_info (self : Workout) : InfoMessage :=
  ⟨self.className, self.duration, self.get_distance, self.get_mean_speed,
    self.get_spent_calories⟩

/-!
Mutable-object model.  The Python methods assign attributes on self
(self.distance, self.speed, self.calories) before returning.  To settle the
purity claim we model the object state explicitly: the immutable fields
bound at construction (the reading) together with the three attributes the
methods may have set, and each method as a function from state to
(returned value, new state), following each method body statement by
statement, including the nested method calls.
-/

/-- Object state: the constructor-bound reading plus the attributes the
methods assign. -/
structure WorkoutState where
  reading : Workout
  distanceA : Option ℚ
  speedA : Option ℚ
  caloriesA : Option ℚ

/-- get_distance on the mutable object: computes the distance, stores it in
self.distance, returns it. -/
def getDistanceM (s : WorkoutState) : ℚ × WorkoutState :=
  let d := s.reading.get_distance
  (d, { s with distanceA := some d })

/-- get_mean_speed on the mutable object.  The inherited body calls
self.get_distance() (which assigns self.distance) and assigns self.speed;
the Swimming override assigns only self.speed. -/
def getMeanSpeedM (s : WorkoutState) : ℚ × WorkoutState :=
  match s.reading with
  | .swm _ =>
    let v := s.reading.get_mean_speed
    (v, { s with speedA := some v })
  | _ =>
    let p := getDistanceM s
    let v := p.1 / s.reading.duration
    (v, { p.2 with speedA := some v })

/-- get_spent_calories on the mutable object.  Every override calls
self.get_mean_speed() (with its attribute assignments) and assigns
self.calories. -/
def getSpentCaloriesM (s : WorkoutState) : ℚ × WorkoutState :=
  let p := getMeanSpeedM s
  let c :=
    match s.reading with
    | .run r =>
      (Running.CALORIES_MEAN_SPEED_MULTIPLIER * p.1
          + Running.CALORIES_MEAN_SPEED_SHIFT)
        * r.weight / Training.M_IN_KM * (r.duration * Training.MIN_IN_H)
    | .wlk w =>
      (SportsWalking.CALORIES_WEIGHT_MULTIPLIER * w.weight
          + ((p.1 * SportsWalking.KMH_IN_MSEC) ^ 2
                / (w.height / SportsWalking.CM_IN_M))
            * SportsWalking.CALORIES_SPEED_HEIGHT_MULTIPLIER * w.weight)
        * (w.duration * Training.MIN_IN_H)
    | .swm sw =>
      (p.1 + Swimming.SPEED_MEAN_MULTIPLER)
        * Swimming.WEIGHT_MULTIPLER * sw.weight * sw.duration
  (c, { p.2 with caloriesA := some c })

/-- The step/stroke count field of the underlying workout. -/
def Workout.action : Workout → ℚ
  | .swm s => s.action
  | .run r => r.action
  | .wlk w => w.action

/-- The dispatch code that read_package maps to this workout kind. -/
def Workout.code : Workout → String
  | .swm _ => "SWM"
  | .run _ => "RUN"
  | .wlk _ => "WLK"

/-- A string ends with a point followed by exactly three decimal digits. -/
def hasThreeDecimals (s : String) : Prop :=
  ∃ a b, s = a ++ "." ++ b ∧ b.length = 3 ∧ ∀ c ∈ b.data, c.isDigit = true

end Homework

namespace Homework

/-! Helper lemmas shared between the claim theorems. -/

lemma digitChar_isDigit (d : ℕ) (hd : d < 10) :
    (Nat.digitChar d).isDigit = true := by
  interval_cases d <;> rfl

lemma threeDigits_length (k : ℕ) : (threeDigits k).length = 3 := rfl

lemma formatFixed3_decimals (q : ℚ) : hasThreeDecimals (formatFixed3 q) := by
  refine ⟨(if round (q * 1000) < (0 : ℤ) then "-" else "")
      ++ toString ((round (q * 1000)).natAbs / 1000),
    threeDigits ((round (q * 1000)).natAbs % 1000), ?_, rfl, ?_⟩
  · simp [formatFixed3, String.append_assoc]
  · intro c hc
    have h100 : (round (q * 1000)).natAbs % 1000 / 100 < 10 := by omega
    have h10 : (round (q * 1000)).natAbs % 1000 / 10 % 10 < 10 := by omega
    have h1 : (round (q * 1000)).natAbs % 1000 % 10 < 10 := by omega
    have hc' : c = Nat.digitChar ((round (q * 1000)).natAbs % 1000 / 100)
        ∨ c = Nat.digitChar ((round (q * 1000)).natAbs % 1000 / 10 % 10)
        ∨ c = Nat.digitChar ((round (q * 1000)).natAbs % 1000 % 10) := by
      simpa [threeDigits] using hc
    rcases hc' with h | h | h <;> subst h
    · exact digitChar_isDigit _ h100
    · exact digitChar_isDigit _ h10
    · exact digitChar_isDigit _ h1

lemma getDistanceM_fst (s : WorkoutState) :
    (getDistanceM s).1 = s.reading.get_distance := rfl

lemma getDistanceM_reading (s : WorkoutState) :
    (getDistanceM s).2.reading = s.reading := rfl

lemma getMeanSpeedM_fst (s : WorkoutState) :
    (getMeanSpeedM s).1 = s.reading.get_mean_speed := by
  unfold getMeanSpeedM
  cases hr : s.reading <;>
    simp [hr, getDistanceM, Workout.get_mean_speed, Workout.get_distance,
      Workout.duration, Running.get_mean_speed, SportsWalking.get_mean_speed,
      Running.get_distance, SportsWalking.get_distance,
      Training.get_mean_speed_with]

lemma getMeanSpeedM_reading (s : WorkoutState) :
    (getMeanSpeedM s).2.reading = s.reading := by
  unfold getMeanSpeedM
  cases hr : s.reading <;> simp [hr, getDistanceM]

lemma getMeanSpeedM_speedA (s : WorkoutState) :
    (getMeanSpeedM s).2.speedA = some s.reading.get_mean_speed := by
  unfold getMeanSpeedM
  cases hr : s.reading <;>
    simp [hr, getDistanceM, Workout.get_mean_speed, Workout.get_distance,
      Workout.duration, Running.get_mean_speed, SportsWalking.get_mean_speed,
      Running.get_distance, SportsWalking.get_distance,
      Training.get_mean_speed_with]

lemma getSpentCaloriesM_fst (s : WorkoutState) :
    (getSpentCaloriesM s).1 = s.reading.get_spent_calories := by
  unfold getSpentCaloriesM
  cases hr : s.reading <;>
    simp [hr, getMeanSpeedM_fst, Workout.get_spent_calories,
      Workout.get_mean_speed, Running.get_spent_calories,
      SportsWalking.get_spent_calories, Swimming.get_spent_calories]

lemma getSpentCaloriesM_reading (s : WorkoutState) :
    (getSpentCaloriesM s).2.reading = s.reading := by
  have h : (getSpentCaloriesM s).2.reading = (getMeanSpeedM s).2.reading := by
    unfold getSpentCaloriesM
    cases s.reading <;> rfl
  rw [h, getMeanSpeedM_reading]

/-- Claim C1, counterexample: for the running workout built from
action=15000, duration=1, weight=75, get_spent_calories returns exactly
797.805, which is 183.195 below 981.0, so the calories are not
approximately 981.0. -/
theorem run_demo_calories_not_981 :
    (Running.mk ⟨15000, 1, 75⟩).get_spent_calories = 797.805 ∧
    (981 : ℚ) - (Running.mk ⟨15000, 1, 75⟩).get_spent_calories = 183.195 := by
  norm_num [Running.get_spent_calories, Running.get_mean_speed,
    Training.get_mean_speed_with, Training.get_distance_with,
    Training.LEN_STEP, Training.M_IN_KM, Training.MIN_IN_H,
    Running.CALORIES_MEAN_SPEED_MULTIPLIER, Running.CALORIES_MEAN_SPEED_SHIFT]

/-- Claim C1 as amended: for the running workout built from action=15000,
duration=1, weight=75, get_distance returns 9.75, get_mean_speed returns
9.75 and get_spent_calories returns 797.805. -/
theorem run_demo_values :
    (Running.mk ⟨15000, 1, 75⟩).get_distance = 9.75 ∧
    (Running.mk ⟨15000, 1, 75⟩).get_mean_speed = 9.75 ∧
    (Running.mk ⟨15000, 1, 75⟩).get_spent_calories = 797.805 := by
  norm_num [Running.get_distance, Running.get_spent_calories,
    Running.get_mean_speed, Training.get_mean_speed_with,
    Training.get_distance_with, Training.LEN_STEP, Training.M_IN_KM,
    Training.MIN_IN_H, Running.CALORIES_MEAN_SPEED_MULTIPLIER,
    Running.CALORIES_MEAN_SPEED_SHIFT]

/-- Claim C2: every swimming workout with positive duration has mean speed
(length_pool * count_pool) / 1000 / duration, ignoring the action count and
step length, and spent calories (mean_speed + 1.1) * 2 * weight * duration. -/
theorem swimming_speed_calories (s : Swimming) (h : 0 < s.duration) :
    s.get_mean_speed = s.length_pool * s.count_pool / 1000 / s.duration ∧
    s.get_spent_calories
      = (s.get_mean_speed + 1.1) * 2 * s.weight * s.duration :=
  ⟨rfl, rfl⟩

/-- Witness for C2 at the demo reading action=720, duration=1, weight=80,
length_pool=25, count_pool=40: speed 1.0 km/h and calories 336.0. -/
theorem swimming_speed_calories_witness :
    (Swimming.mk ⟨720, 1, 80⟩ 25 40).get_mean_speed = 1 ∧
    (Swimming.mk ⟨720, 1, 80⟩ 25 40).get_spent_calories = 336 := by
  have h := swimming_speed_calories (Swimming.mk ⟨720, 1, 80⟩ 25 40)
    (by show (0 : ℚ) < 1; norm_num)
  refine ⟨?_, ?_⟩
  · rw [h.1]
    show (25 * 40 / 1000 / 1 : ℚ) = 1
    norm_num
  · rw [h.2, h.1]
    show ((25 * 40 / 1000 / 1 : ℚ) + 1.1) * 2 * 80 * 1 = 336
    norm_num

/-- Claim C3: every walking workout with positive duration and height has
spent calories (0.035 * weight + ((mean_speed * 0.278)^2 / (height/100))
* 0.029 * weight) * (duration * 60), where the mean speed is the inherited
step-based action * 0.65 / 1000 / duration. -/
theorem walking_calories (w : SportsWalking) (h1 : 0 < w.duration)
    (h2 : 0 < w.height) :
    w.get_spent_calories
      = (0.035 * w.weight
          + (((w.action * 0.65 / 1000 / w.duration) * 0.278) ^ 2
                / (w.height / 100)) * 0.029 * w.weight)
        * (w.duration * 60) :=
  rfl

/-- Witness for C3 at the demo reading action=9000, duration=1, weight=75,
height=180. -/
theorem walking_calories_witness :
    (SportsWalking.mk ⟨9000, 1, 75⟩ 180).get_spent_calories
      = (0.035 * 75
          + (((9000 * 0.65 / 1000 / 1) * 0.278) ^ 2 / (180 / 100))
              * 0.029 * 75) * (1 * 60) :=
  walking_calories (SportsWalking.mk ⟨9000, 1, 75⟩ 180)
    (by show (0 : ℚ) < 1; norm_num) (by show (0 : ℚ) < 180; norm_num)

/-- Claim C4: every running workout with positive duration has spent
calories (18 * mean_speed + 1.79) * weight / 1000 * (duration * 60), where
the mean speed is the step-based action * 0.65 / 1000 / duration. -/
theorem running_calories (r : Running) (h : 0 < r.duration) :
    r.get_spent_calories
      = (18 * (r.action * 0.65 / 1000 / r.duration) + 1.79)
          * r.weight / 1000 * (r.duration * 60) :=
  rfl

/-- Witness for C4 at the demo reading action=15000, duration=1, weight=75. -/
theorem running_calories_witness :
    (Running.mk ⟨15000, 1, 75⟩).get_spent_calories
      = (18 * (15000 * 0.65 / 1000 / 1) + 1.79) * 75 / 1000 * (1 * 60) :=
  running_calories (Running.mk ⟨15000, 1, 75⟩) (by show (0 : ℚ) < 1; norm_num)

/-- Claim C5, counterexample: for the demo swimming workout the mean speed
is not distance / duration (it is 1.0 while distance / duration is 0.9936),
because Swimming overrides get_mean_speed with the pool-based formula. -/
theorem swim_speed_neq_distance_div_duration :
    (Workout.swm ⟨⟨720, 1, 80⟩, 25, 40⟩).get_mean_speed
      ≠ (Workout.swm ⟨⟨720, 1, 80⟩, 25, 40⟩).get_distance
          / (Workout.swm ⟨⟨720, 1, 80⟩, 25, 40⟩).duration := by
  show (25 * 40 / 1000 / 1 : ℚ) ≠ 720 * 1.38 / 1000 / 1
  norm_num

/-- Claim C5 as amended: distance is always derived as unit_step * action
/ 1000 (0.65 for running and walking, 1.38 for swimming); speed is derived
as distance / duration for running and walking, while swimming derives it
as length_pool * count_pool / 1000 / duration; the stored distance and
speed attributes only ever receive these derived values. -/
theorem derived_values :
    (∀ r : Running, r.get_distance = 0.65 * r.action / 1000
        ∧ r.get_mean_speed = r.get_distance / r.duration) ∧
    (∀ w : SportsWalking, w.get_distance = 0.65 * w.action / 1000
        ∧ w.get_mean_speed = w.get_distance / w.duration) ∧
    (∀ s : Swimming, s.get_distance = 1.38 * s.action / 1000
        ∧ s.get_mean_speed = s.length_pool * s.count_pool / 1000 / s.duration) ∧
    (∀ st : WorkoutState,
        (getDistanceM st).2.distanceA = some st.reading.get_distance) ∧
    (∀ st : WorkoutState,
        (getMeanSpeedM st).2.speedA = some st.reading.get_mean_speed) := by
  refine ⟨fun r => ⟨?_, rfl⟩, fun w => ⟨?_, rfl⟩, fun s => ⟨?_, rfl⟩,
    fun st => rfl, fun st => getMeanSpeedM_speedA st⟩
  all_goals
    simp only [Running.get_distance, SportsWalking.get_distance,
      Swimming.get_distance, Training.get_distance_with, Training.LEN_STEP,
      Swimming.LEN_STEP, Training.M_IN_KM]
  all_goals ring

/-- Claim C6: read_package yields no Training value exactly when the code
is not one of SWM, RUN, WLK or the reading list does not have the arity the
selected kind requires (5 for SWM, 3 for RUN, 4 for WLK); any workout it
does return is of the kind matching the code. -/
theorem read_package_spec (wt : String) (data : List ℚ) :
    (read_package wt data = none ↔
      ((wt ≠ "SWM" ∧ wt ≠ "RUN" ∧ wt ≠ "WLK") ∨
        (wt = "SWM" ∧ data.length ≠ 5) ∨
        (wt = "RUN" ∧ data.length ≠ 3) ∨
        (wt = "WLK" ∧ data.length ≠ 4))) ∧
    ∀ w, read_package wt data = some w → w.code = wt := by
  unfold read_package
  split_ifs with h1 h2 h3
  · subst h1
    constructor
    · rcases data with _ | ⟨a, _ | ⟨b, _ | ⟨c, _ | ⟨d, _ | ⟨e, _ | ⟨f, r⟩⟩⟩⟩⟩⟩ <;> simp
    · rcases data with _ | ⟨a, _ | ⟨b, _ | ⟨c, _ | ⟨d, _ | ⟨e, _ | ⟨f, r⟩⟩⟩⟩⟩⟩ <;>
        intro w hw <;>
        first
          | exact Option.noConfusion hw
          | (injection hw with hw; subst hw; rfl)
  · subst h2
    constructor
    · rcases data with _ | ⟨a, _ | ⟨b, _ | ⟨c, _ | ⟨d, r⟩⟩⟩⟩ <;> simp
    · rcases data with _ | ⟨a, _ | ⟨b, _ | ⟨c, _ | ⟨d, r⟩⟩⟩⟩ <;>
        intro w hw <;>
        first
          | exact Option.noConfusion hw
          | (injection hw with hw; subst hw; rfl)
  · subst h3
    constructor
    · rcases data with _ | ⟨a, _ | ⟨b, _ | ⟨c, _ | ⟨d, _ | ⟨e, r⟩⟩⟩⟩⟩ <;> simp
    · rcases data with _ | ⟨a, _ | ⟨b, _ | ⟨c, _ | ⟨d, _ | ⟨e, r⟩⟩⟩⟩⟩ <;>
        intro w hw <;>
        first
          | exact Option.noConfusion hw
          | (injection hw with hw; subst hw; rfl)
  · constructor
    · simp [h1, h2, h3]
    · intro w hw
      exact hw.elim

/-- Witness for C6 at the recognized code RUN with a 3-element reading:
a workout is produced and its kind matches the code. -/
theorem read_package_spec_witness :
    read_package "RUN" [15000, 1, 75] ≠ none ∧
    ∀ w, read_package "RUN" [15000, 1, 75] = some w → w.code = "RUN" := by
  have h := read_package_spec "RUN" [15000, 1, 75]
  refine ⟨fun hn => ?_, h.2⟩
  have h2 := h.1.mp hn
  simp at h2

/-- Claim C7: every rendered workout message is the single fixed template
line in which the activity kind appears as the class name and duration,
distance, speed and calories are each rendered with exactly 3 decimal
digits. -/
theorem get_message_spec (w : Workout) :
    w.show_training_info.get_message
      = "Тип тренировки: " ++ w.className
        ++ "; Длительность: " ++ formatFixed3 w.duration
        ++ " ч.; Дистанция: " ++ formatFixed3 w.get_distance
        ++ " км; Ср. скорость: " ++ formatFixed3 w.get_mean_speed
        ++ " км/ч; Потрачено ккал: " ++ formatFixed3 w.get_spent_calories
        ++ "." ∧
    hasThreeDecimals (formatFixed3 w.duration) ∧
    hasThreeDecimals (formatFixed3 w.get_distance) ∧
    hasThreeDecimals (formatFixed3 w.get_mean_speed) ∧
    hasThreeDecimals (formatFixed3 w.get_spent_calories) :=
  ⟨rfl, formatFixed3_decimals _, formatFixed3_decimals _,
    formatFixed3_decimals _, formatFixed3_decimals _⟩

/-- Claim C8: for every workout of every kind, a non-negative action count
gives a non-negative distance. -/
theorem distance_nonneg (w : Workout) (h : 0 ≤ w.action) :
    0 ≤ w.get_distance := by
  cases w with
  | swm s =>
    have h' : (0 : ℚ) ≤ s.action := h
    show (0 : ℚ) ≤ s.action * Swimming.LEN_STEP / Training.M_IN_KM
    exact div_nonneg (mul_nonneg h' (by norm_num [Swimming.LEN_STEP]))
      (by norm_num [Training.M_IN_KM])
  | run r =>
    have h' : (0 : ℚ) ≤ r.action := h
    show (0 : ℚ) ≤ r.action * Training.LEN_STEP / Training.M_IN_KM
    exact div_nonneg (mul_nonneg h' (by norm_num [Training.LEN_STEP]))
      (by norm_num [Training.M_IN_KM])
  | wlk k =>
    have h' : (0 : ℚ) ≤ k.action := h
    show (0 : ℚ) ≤ k.action * Training.LEN_STEP / Training.M_IN_KM
    exact div_nonneg (mul_nonneg h' (by norm_num [Training.LEN_STEP]))
      (by norm_num [Training.M_IN_KM])

/-- Witness for C8 at the running demo workout. -/
theorem distance_nonneg_witness :
    (0 : ℚ) ≤ (Workout.run ⟨⟨15000, 1, 75⟩⟩).action ∧
    (0 : ℚ) ≤ (Workout.run ⟨⟨15000, 1, 75⟩⟩).get_distance :=
  ⟨by show (0 : ℚ) ≤ 15000; norm_num,
    distance_nonneg _ (by show (0 : ℚ) ≤ 15000; norm_num)⟩

/-- Claim C9: each method is a pure function of the constructor-bound
reading: on any two object states with equal readings the returned values
agree, no method changes the reading (so no call changes the value any
other call returns, and repeated calls return the same value), and each
returned value equals the corresponding pure function of the reading. -/
theorem methods_pure (s t : WorkoutState) (h : s.reading = t.reading) :
    (getDistanceM s).1 = (getDistanceM t).1 ∧
    (getMeanSpeedM s).1 = (getMeanSpeedM t).1 ∧
    (getSpentCaloriesM s).1 = (getSpentCaloriesM t).1 ∧
    (getDistanceM s).2.reading = s.reading ∧
    (getMeanSpeedM s).2.reading = s.reading ∧
    (getSpentCaloriesM s).2.reading = s.reading ∧
    (getDistanceM s).1 = s.reading.get_distance ∧
    (getMeanSpeedM s).1 = s.reading.get_mean_speed ∧
    (getSpentCaloriesM s).1 = s.reading.get_spent_calories := by
  refine ⟨?_, ?_, ?_, getDistanceM_reading s, getMeanSpeedM_reading s,
    getSpentCaloriesM_reading s, getDistanceM_fst s, getMeanSpeedM_fst s,
    getSpentCaloriesM_fst s⟩
  · rw [getDistanceM_fst, getDistanceM_fst, h]
  · rw [getMeanSpeedM_fst, getMeanSpeedM_fst, h]
  · rw [getSpentCaloriesM_fst, getSpentCaloriesM_fst, h]

/-- Witness for C9: two swimming objects with equal readings but different
attribute caches return the same calories. -/
theorem methods_pure_witness :
    (getSpentCaloriesM
        ⟨Workout.swm ⟨⟨720, 1, 80⟩, 25, 40⟩, none, none, none⟩).1
      = (getSpentCaloriesM
          ⟨Workout.swm ⟨⟨720, 1, 80⟩, 25, 40⟩, some 42, some 7, some 0⟩).1 :=
  (methods_pure _ _ rfl).2.2.1

/-- Claim C10: swimming distance is action * 1.38 / 1000, entirely ignoring
length_pool and count_pool, so for the demo reading it is 0.9936 km while
speed * duration is 1.0 km, and the two differ. -/
theorem swimming_distance_ignores_pool :
    (∀ s : Swimming, s.get_distance = s.action * 1.38 / 1000) ∧
    (∀ s : Swimming, ∀ lp cp : ℚ,
        (Swimming.mk s.toTraining lp cp).get_distance = s.get_distance) ∧
    (Swimming.mk ⟨720, 1, 80⟩ 25 40).get_distance = 0.9936 ∧
    (Swimming.mk ⟨720, 1, 80⟩ 25 40).get_mean_speed
        * (Swimming.mk ⟨720, 1, 80⟩ 25 40).duration = 1 ∧
    (Swimming.mk ⟨720, 1, 80⟩ 25 40).get_distance
      ≠ (Swimming.mk ⟨720, 1, 80⟩ 25 40).get_mean_speed
          * (Swimming.mk ⟨720, 1, 80⟩ 25 40).duration := by
  refine ⟨fun s => rfl, fun s lp cp => rfl, ?_, ?_, ?_⟩
  · show (720 * 1.38 / 1000 : ℚ) = 0.9936
    norm_num
  · show (25 * 40 / 1000 / 1 * 1 : ℚ) = 1
    norm_num
  · show (720 * 1.38 / 1000 : ℚ) ≠ 25 * 40 / 1000 / 1 * 1
    norm_num

end Homework
